import Mathlib

/-!
Verification of the MSI cooler-boost thermal controller.

This file shallowly embeds the two Python source files:

* `manager.py` — the `ThermalMonitor` class: the hysteresis decision in
  `check_temperatures`, the actuation `set_cooler_boost`, the supervising
  `monitor_loop`, and the lifecycle `start`/`stop`.
* `main.py` — the `MSIECController` CLI: temperature formatting
  (`get_cpu_temperature` / `get_gpu_temperature` plus the `print` in `main`)
  and `get_cooler_boost_status`.

Temperatures and timestamps (Python floats) are modelled as exact rationals
(ℚ); strings are modelled as `List Char`; a fallible external call is an
`Option`; the success of the boost-write subprocess call is an explicit
`writeOk : Bool` parameter.
-/

namespace MsiCooler

/-- The module-level configuration constants of `manager.py`
(`CPU_TEMP_THRESHOLD`, `GPU_TEMP_THRESHOLD`, `TEMP_OSCILLATION_FIX`,
`TIME_OSCILLATION_FIX`). -/
structure Config where
  cpuThreshold : ℚ
  gpuThreshold : ℚ
  tempMargin : ℚ
  timeMargin : ℚ
deriving DecidableEq, Repr

/-- The defaults written at the top of `manager.py` (60, 60, 5, 60). -/
def defaultConfig : Config := ⟨60, 60, 5, 60⟩

/-- The mutable monitor fields `cooler_boost_enabled` and
`last_coolerboost_enabled_at` of `ThermalMonitor` (the latter starts at 0). -/
structure MonitorState where
  enabled : Bool
  lastEnabledAt : ℚ
deriving DecidableEq, Repr

/-- Lines 133 and 137 of `manager.py`: a present reading strictly above its
threshold (`cpu_temp is not None and cpu_temp > CPU_TEMP_THRESHOLD`). -/
def overThreshold (thr : ℚ) : Option ℚ → Bool
  | none => false
  | some v => decide (thr < v)

/-- Lines 143 and 144 of `manager.py`: the per-sensor "safe" predicate of the
hysteresis guard (`cpu_temp is None or cpu_temp < (CPU_TEMP_THRESHOLD -
TEMP_OSCILLATION_FIX)`). -/
def safeReading (thr margin : ℚ) : Option ℚ → Bool
  | none => true
  | some v => decide (v < thr - margin)

/-- Lines 130-148 of `manager.py`: the value of `should_enable` after the
threshold checks and the oscillation (hysteresis) block. -/
def computeShouldEnable (cfg : Config) (cpu gpu : Option ℚ) (enabled : Bool) :
    Bool :=
  let se := overThreshold cfg.cpuThreshold cpu ||
            overThreshold cfg.gpuThreshold gpu
  if enabled && !se then
    if !(safeReading cfg.cpuThreshold cfg.tempMargin cpu &&
         safeReading cfg.gpuThreshold cfg.tempMargin gpu) then
      true
    else
      se
  else
    se

/-- Lines 100-110 of `manager.py` (`set_cooler_boost`): the subprocess call
either succeeds (`writeOk = true`, output was not `None`) and
`cooler_boost_enabled` is set to the requested value, or fails and the flag
is left untouched. -/
def setCoolerBoost (st : MonitorState) (enable : Bool) (writeOk : Bool) :
    MonitorState :=
  if writeOk then { st with enabled := enable } else st

/-- Lines 113-164 of `manager.py` (`check_temperatures`) as a state
transition. Inputs: the two readings (already parsed, `none` on any read
failure), the current state, the current time, and whether a boost write
would succeed. Output: the new state and the `set_cooler_boost` call made
this cycle, if any (`some b` means `set_cooler_boost(b)` was attempted).

Line 154 sets `last_coolerboost_enabled_at = time.time()` unconditionally
after the enable attempt, whether or not the write succeeded; this is
embedded as written. -/
def checkTemperatures (cfg : Config) (cpu gpu : Option ℚ) (st : MonitorState)
    (now : ℚ) (writeOk : Bool) : MonitorState × Option Bool :=
  if cpu.isNone && gpu.isNone then
    (st, none)
  else
    let se := computeShouldEnable cfg cpu gpu st.enabled
    if se && !st.enabled then
      ({ setCoolerBoost st true writeOk with lastEnabledAt := now }, some true)
    else if !se && st.enabled &&
        decide (cfg.timeMargin < now - st.lastEnabledAt) then
      (setCoolerBoost st false writeOk, some false)
    else
      (st, none)

/-- The decision implicit in `check_temperatures`: the boost state the cycle
aims for. It is `should_enable` (after the hysteresis block) except that
with both readings absent the prior state is kept (line 117-119), and a
time-gated disable (line 156 condition false) keeps the boost on. The
lemma `checkTemperatures_action` below proves that `check_temperatures`
calls `set_cooler_boost` exactly when this decision differs from the
current `cooler_boost_enabled`. -/
def decision (cfg : Config) (cpu gpu : Option ℚ) (st : MonitorState)
    (now : ℚ) : Bool :=
  if cpu.isNone && gpu.isNone then
    st.enabled
  else
    let se := computeShouldEnable cfg cpu gpu st.enabled
    if st.enabled && !se && !(decide (cfg.timeMargin < now - st.lastEnabledAt))
    then true
    else se

/-- Link between the transition and the extracted decision:
`check_temperatures` attempts a `set_cooler_boost` call exactly when the
decision differs from the current `cooler_boost_enabled`, and the call's
argument is the decision. -/
theorem checkTemperatures_action (cfg : Config) (cpu gpu : Option ℚ)
    (st : MonitorState) (now : ℚ) (w : Bool) :
    (checkTemperatures cfg cpu gpu st now w).2 =
      (if decision cfg cpu gpu st now = st.enabled then none
       else some (decision cfg cpu gpu st now)) := by
  unfold checkTemperatures decision
  by_cases h : (cpu.isNone && gpu.isNone) = true
  · simp [h]
  · cases hen : st.enabled <;>
      cases hse : computeShouldEnable cfg cpu gpu st.enabled <;>
        simp [h, hen, hse] <;> split_ifs <;> simp_all <;> linarith

/-- The hysteresis-block outcome is `false` when every present reading is
at or below its threshold and strictly below the safe floor
`threshold - margin`. -/
theorem computeShouldEnable_false (cfg : Config) (cpu gpu : Option ℚ)
    (enabled : Bool)
    (hcpuTh : ∀ c, cpu = some c → ¬cfg.cpuThreshold < c)
    (hgpuTh : ∀ g, gpu = some g → ¬cfg.gpuThreshold < g)
    (hcpuSafe : ∀ c, cpu = some c → c < cfg.cpuThreshold - cfg.tempMargin)
    (hgpuSafe : ∀ g, gpu = some g → g < cfg.gpuThreshold - cfg.tempMargin) :
    computeShouldEnable cfg cpu gpu enabled = false := by
  cases cpu <;> cases gpu <;>
    simp_all [computeShouldEnable, overThreshold, safeReading]

/-- C1: whenever some present reading strictly exceeds its threshold, the
cycle's decision is to enable boost, for every prior state (any `enabled`,
any `lastEnabledAt`), every time margin and every temperature margin; and
the post-state under a successful write has boost enabled. -/
theorem decision_enable_of_overThreshold (cfg : Config) (cpu gpu : Option ℚ)
    (st : MonitorState) (now : ℚ)
    (h : (∃ c, cpu = some c ∧ cfg.cpuThreshold < c) ∨
         (∃ g, gpu = some g ∧ cfg.gpuThreshold < g)) :
    decision cfg cpu gpu st now = true ∧
    (checkTemperatures cfg cpu gpu st now true).1.enabled = true := by
  have hse : computeShouldEnable cfg cpu gpu st.enabled = true := by
    rcases h with ⟨c, hc, hlt⟩ | ⟨g, hg, hlt⟩
    · subst hc; simp [computeShouldEnable, overThreshold, hlt]
    · subst hg; simp [computeShouldEnable, overThreshold, hlt]
  have hnn : (cpu.isNone && gpu.isNone) = false := by
    rcases h with ⟨c, hc, _⟩ | ⟨g, hg, _⟩
    · subst hc; simp
    · subst hg; simp
  refine ⟨by simp [decision, hnn, hse], ?_⟩
  cases hen : st.enabled <;>
    (rw [hen] at hse; simp [checkTemperatures, hnn, hse, hen, setCoolerBoost])

/-- C2: with boost enabled and no present reading over its threshold, if
every present reading is strictly below `threshold - margin` then: when
`now - lastEnabledAt > timeMargin` the decision is to disable (and a
successful write leaves boost off); when `now - lastEnabledAt ≤ timeMargin`
the decision stays `true` and the cycle makes no `set_cooler_boost` call at
all, however low the readings are. -/
theorem decision_disable_iff_time_elapsed (cfg : Config) (cpu gpu : Option ℚ)
    (st : MonitorState) (now : ℚ) (w : Bool)
    (hen : st.enabled = true)
    (hpresent : cpu ≠ none ∨ gpu ≠ none)
    (hcpuTh : ∀ c, cpu = some c → ¬cfg.cpuThreshold < c)
    (hgpuTh : ∀ g, gpu = some g → ¬cfg.gpuThreshold < g)
    (hcpuSafe : ∀ c, cpu = some c → c < cfg.cpuThreshold - cfg.tempMargin)
    (hgpuSafe : ∀ g, gpu = some g → g < cfg.gpuThreshold - cfg.tempMargin) :
    (cfg.timeMargin < now - st.lastEnabledAt →
      decision cfg cpu gpu st now = false ∧
      (checkTemperatures cfg cpu gpu st now true).1.enabled = false) ∧
    (¬cfg.timeMargin < now - st.lastEnabledAt →
      decision cfg cpu gpu st now = true ∧
      checkTemperatures cfg cpu gpu st now w = (st, none)) := by
  have hse : computeShouldEnable cfg cpu gpu st.enabled = false :=
    computeShouldEnable_false cfg cpu gpu st.enabled hcpuTh hgpuTh
      hcpuSafe hgpuSafe
  rw [hen] at hse
  have hnn : (cpu.isNone && gpu.isNone) = false := by
    rcases hpresent with hc | hg
    · cases cpu
      · exact absurd rfl hc
      · simp
    · cases gpu
      · exact absurd rfl hg
      · simp [Bool.and_comm]
  constructor
  · intro ht
    constructor
    · simp [decision, hnn, hse, hen, ht]
    · simp [checkTemperatures, hnn, hse, hen, ht, setCoolerBoost]
  · intro ht
    constructor
    · simp [decision, hnn, hse, hen, ht]
    · simp [checkTemperatures, hnn, hse, hen, ht]

/-- C3: when both reads failed, the cycle is a no-op: the state is
returned unchanged, no `set_cooler_boost` call is made, and the decision
equals the prior `enabled` value. -/
theorem checkTemperatures_both_absent (cfg : Config) (st : MonitorState)
    (now : ℚ) (w : Bool) :
    checkTemperatures cfg none none st now w = (st, none) ∧
    decision cfg none none st now = st.enabled := by
  simp [checkTemperatures, decision]

/-- A failed write never changes `cooler_boost_enabled`: with
`writeOk = false` the post-cycle `enabled` equals the pre-cycle one. -/
theorem checkTemperatures_failedWrite_enabled (cfg : Config)
    (cpu gpu : Option ℚ) (st : MonitorState) (now : ℚ) :
    (checkTemperatures cfg cpu gpu st now false).1.enabled = st.enabled := by
  unfold checkTemperatures
  split_ifs <;> simp [setCoolerBoost] <;> split_ifs <;> simp

/-- C4: if a cycle attempts a boost write `b` and the write fails, the
tracked `cooler_boost_enabled` keeps its pre-attempt value; and any later
cycle whose decision is again `b` re-attempts the `set_cooler_boost b`
call. -/
theorem failed_write_preserved_and_retried (cfg : Config)
    (cpu gpu cpu2 gpu2 : Option ℚ) (st st2 : MonitorState) (now now2 : ℚ)
    (b w2 : Bool)
    (h : checkTemperatures cfg cpu gpu st now false = (st2, some b))
    (hpersist : decision cfg cpu2 gpu2 st2 now2 = b) :
    st2.enabled = st.enabled ∧
    (checkTemperatures cfg cpu2 gpu2 st2 now2 w2).2 = some b := by
  have ha := checkTemperatures_action cfg cpu gpu st now false
  rw [h] at ha
  have hb : b ≠ st.enabled := by
    by_cases hd : decision cfg cpu gpu st now = st.enabled
    · rw [if_pos hd] at ha; exact absurd ha (by simp)
    · rw [if_neg hd] at ha
      have : b = decision cfg cpu gpu st now := by
        exact Option.some.inj ha
      rw [this]; exact hd
  have he : st2.enabled = st.enabled := by
    have hf := checkTemperatures_failedWrite_enabled cfg cpu gpu st now
    rw [h] at hf; exact hf
  refine ⟨he, ?_⟩
  rw [checkTemperatures_action, hpersist, he, if_neg hb]

/-- C5 counterexample: default config, boost off, `lastEnabledAt = 0`, a
hot CPU reading at time 100 and a failing write. The cycle attempts
`set_cooler_boost(True)`, the write fails, `enabled` stays `false` (no
confirmed-success write happened), yet `lastEnabledAt` is updated from 0
to 100 — line 154 of `manager.py` stamps the time unconditionally. -/
theorem lastEnabledAt_updated_on_failed_write :
    (checkTemperatures defaultConfig (some 70) none ⟨false, 0⟩ 100 false).1 =
      ⟨false, 100⟩ ∧
    (checkTemperatures defaultConfig (some 70) none ⟨false, 0⟩ 100 false).2 =
      some true := by
  constructor <;>
    · simp [checkTemperatures, computeShouldEnable, overThreshold,
        safeReading, setCoolerBoost, defaultConfig]
      norm_num

/-- C5 (amended): `lastEnabledAt` changes only in the enable-attempt
branch — decision to enable while boost is off — where it is stamped with
`now` whether or not the write succeeds; every enable attempt stamps it;
and `enabled` itself changes only through a confirmed-success write whose
requested value is the new state. -/
theorem state_change_characterisation (cfg : Config) (cpu gpu : Option ℚ)
    (st : MonitorState) (now : ℚ) (w : Bool) :
    ((checkTemperatures cfg cpu gpu st now w).1.lastEnabledAt ≠
        st.lastEnabledAt →
      (checkTemperatures cfg cpu gpu st now w).2 = some true ∧
      st.enabled = false ∧
      (checkTemperatures cfg cpu gpu st now w).1.lastEnabledAt = now) ∧
    ((checkTemperatures cfg cpu gpu st now w).2 = some true →
      (checkTemperatures cfg cpu gpu st now w).1.lastEnabledAt = now) ∧
    ((checkTemperatures cfg cpu gpu st now w).1.enabled ≠ st.enabled →
      w = true ∧
      (checkTemperatures cfg cpu gpu st now w).2 =
        some (checkTemperatures cfg cpu gpu st now w).1.enabled) := by
  cases w <;>
    (unfold checkTemperatures
     by_cases h1 : (cpu.isNone && gpu.isNone) = true <;>
       simp [h1, setCoolerBoost] <;> split_ifs <;> simp_all)

/-- C6: strict comparisons at the boundaries. A reading exactly at its
threshold does not count as over-threshold, so with boost off and both
readings at their thresholds the decision is `false` (no enable); and a
reading exactly at `threshold - margin` fails the strict `<` safe test of
the hysteresis guard, so with boost on the decision stays `true`, for
every `now` and `lastEnabledAt`. -/
theorem boundary_tie_breaks (cfg : Config) (st : MonitorState) (now : ℚ)
    (hmargin : 0 ≤ cfg.tempMargin) :
    overThreshold cfg.cpuThreshold (some cfg.cpuThreshold) = false ∧
    overThreshold cfg.gpuThreshold (some cfg.gpuThreshold) = false ∧
    (st.enabled = false →
      decision cfg (some cfg.cpuThreshold) (some cfg.gpuThreshold) st now =
        false) ∧
    (st.enabled = true →
      decision cfg (some (cfg.cpuThreshold - cfg.tempMargin)) none st now =
        true ∧
      decision cfg none (some (cfg.gpuThreshold - cfg.tempMargin)) st now =
        true) := by
  have hc : overThreshold cfg.cpuThreshold (some cfg.cpuThreshold) = false :=
    by simp [overThreshold]
  have hg : overThreshold cfg.gpuThreshold (some cfg.gpuThreshold) = false :=
    by simp [overThreshold]
  have hcm : overThreshold cfg.cpuThreshold
      (some (cfg.cpuThreshold - cfg.tempMargin)) = false := by
    simp only [overThreshold, decide_eq_false_iff_not, not_lt]
    linarith
  have hgm : overThreshold cfg.gpuThreshold
      (some (cfg.gpuThreshold - cfg.tempMargin)) = false := by
    simp only [overThreshold, decide_eq_false_iff_not, not_lt]
    linarith
  refine ⟨hc, hg, ?_, ?_⟩
  · intro hen
    simp [decision, computeShouldEnable, hc, hg, hen]
  · intro hen
    constructor
    · simp [decision, computeShouldEnable, hcm, hen, safeReading]
    · simp [decision, computeShouldEnable, hgm, hen, safeReading]

/-- What one iteration of `monitor_loop` can observe: either the cycle runs
`check_temperatures` with its readings, time and write outcome, or some
exception is raised inside the cycle (caught by the `try`/`except` on
lines 172-177, which logs and sleeps). -/
inductive CycleOutcome
  | ok (cpu gpu : Option ℚ) (now : ℚ) (writeOk : Bool)
  | error
deriving DecidableEq, Repr

/-- The monitor's lifecycle state: the `running` flag together with the
boost-tracking fields. -/
structure LoopState where
  running : Bool
  monitor : MonitorState
deriving DecidableEq, Repr

/-- One iteration of `manager.py` lines 171-177: while `running`, run
`check_temperatures` inside `try`; on an exception, log and sleep, leaving
every field untouched. When `running` is false the loop body does not
execute. -/
def monitorLoopStep (cfg : Config) (s : LoopState) (c : CycleOutcome) :
    LoopState :=
  if s.running then
    match c with
    | .ok cpu gpu now w =>
        { s with monitor := (checkTemperatures cfg cpu gpu s.monitor now w).1 }
    | .error => s
  else s

/-- Line 201 of `manager.py` (`stop`): the only place `running` is set back to
false. -/
def stopMonitor (s : LoopState) : LoopState := { s with running := false }

/-- C7: no cycle outcome — in particular no in-cycle exception — ever
changes the `running` flag: after any finite sequence of cycles the flag
equals its initial value, an erroring cycle leaves the whole state exactly
as it was, and only `stopMonitor` (the `stop()` method) clears `running`. -/
theorem loop_survives_cycle_errors (cfg : Config) (s : LoopState)
    (cs : List CycleOutcome) :
    (cs.foldl (monitorLoopStep cfg) s).running = s.running ∧
    (∀ c, (monitorLoopStep cfg s c).running = s.running) ∧
    monitorLoopStep cfg s .error = s ∧
    (stopMonitor s).running = false := by
  have hstep : ∀ t c, (monitorLoopStep cfg t c).running = t.running := by
    intro t c
    unfold monitorLoopStep
    split_ifs <;> cases c <;> rfl
  refine ⟨?_, fun c => hstep s c, ?_, rfl⟩
  · induction cs generalizing s with
    | nil => rfl
    | cons c cs ih =>
        calc (List.foldl (monitorLoopStep cfg) s (c :: cs)).running
            = (monitorLoopStep cfg s c).running := ih _
          _ = s.running := hstep s c
  · unfold monitorLoopStep
    split_ifs <;> rfl

/-- The three things Python's `start` can return: `None` when already
running (line 182), `False` when `check_main_script` raised (line 188),
`True` on success (line 194). -/
inductive StartResult
  | alreadyRunning
  | failed
  | started
deriving DecidableEq, Repr

/-- Lines 47-55 of `manager.py` (`check_main_script`): succeeds exactly when
the main script file exists and is readable; otherwise it raises
(`FileNotFoundError` / `PermissionError`). -/
def checkMainScript (scriptExists readable : Bool) : Bool :=
  scriptExists && readable

/-- Lines 179-194 of `manager.py` (`start`): returns the new `running` flag,
the returned value, and whether the monitor thread was started. The
collaborator check runs before `running` is set and before the thread is
created; its failure is caught and surfaced as a `False` return. -/
def startMonitor (running scriptExists readable : Bool) :
    Bool × StartResult × Bool :=
  if running then
    (running, .alreadyRunning, false)
  else if !checkMainScript scriptExists readable then
    (false, .failed, false)
  else
    (true, .started, true)

/-- C8: from the stopped state, when the main-script check fails `start`
returns the failure value, `running` stays false and no loop thread is
started; when it succeeds, `running` becomes true and the loop thread is
started with the success value returned. -/
theorem start_gates_on_collaborator (scriptExists readable : Bool) :
    (checkMainScript scriptExists readable = false →
      startMonitor false scriptExists readable =
        (false, .failed, false)) ∧
    (checkMainScript scriptExists readable = true →
      startMonitor false scriptExists readable =
        (true, .started, true)) := by
  constructor <;> intro h <;> simp [startMonitor, h]

/-! ### The temperature wire format (`main.py` producing, `manager.py`
consuming) and the cooler-boost status read.  Strings are `List Char`. -/

/-- The whitespace removed by Python's `str.strip()`. -/
def isPySpace (c : Char) : Bool :=
  c = ' ' || c = '\t' || c = '\n' || c = '\r' || c = '\x0b' || c = '\x0c'

/-- Python `str.strip()`: drop leading and trailing whitespace. -/
def pyStrip (l : List Char) : List Char :=
  ((l.dropWhile isPySpace).reverse.dropWhile isPySpace).reverse

/-- Lines 30-39 of `main.py` (`_read_sysfs_file`), successful read: the raw
file content is returned stripped. -/
def readSysfsFile (content : List Char) : List Char := pyStrip content

/-- Lines 83-87 of `main.py` (`get_cooler_boost_status`): read the
`cooler_boost` sysfs file and test the stripped content against the exact
string `"on"`. -/
def getCoolerBoostStatus (content : List Char) : Bool :=
  decide (readSysfsFile content = ['o', 'n'])

/-- Prepend a character to the first chunk of a split result. -/
def consToHead (c : Char) : List (List Char) → List (List Char)
  | [] => [[c]]
  | l :: ls => (c :: l) :: ls

/-- Python `output.split(": ")` (`manager.py` line 93): split on each
non-overlapping occurrence of the two-character separator, scanning left
to right. -/
def splitColonSpace : List Char → List (List Char)
  | [] => [[]]
  | [c] => [[c]]
  | c :: d :: rest =>
      if c = ':' ∧ d = ' ' then [] :: splitColonSpace rest
      else consToHead c (splitColonSpace (d :: rest))

/-- Python `temp_str.replace("°C", "")` (`manager.py` line 94): delete
every non-overlapping occurrence of the two-character pattern. -/
def removeDegC : List Char → List Char
  | [] => []
  | [c] => [c]
  | c :: d :: rest =>
      if c = '°' ∧ d = 'C' then removeDegC rest
      else c :: removeDegC (d :: rest)

/-- ASCII decimal digit test. -/
def isAsciiDigit (c : Char) : Bool := '0' ≤ c && c ≤ '9'

/-- Numeric value of a digit character. -/
def digitVal (c : Char) : ℕ := c.toNat - '0'.toNat

/-- Value of a most-significant-first digit string, folded onto `acc`. -/
def digitsVal : List Char → ℕ → ℕ
  | [], acc => acc
  | c :: rest, acc => digitsVal rest (acc * 10 + digitVal c)

/-- Python `float()` on an unsigned decimal literal `digits [. digits]`
(at least one digit): the exact rational it denotes. The exponent,
infinity and nan forms of `float()` never occur in the temperature
pipeline and are not modelled. -/
def parseUnsignedDecimal (l : List Char) : Option ℚ :=
  let intPart := l.takeWhile isAsciiDigit
  match l.dropWhile isAsciiDigit with
  | [] => if intPart.isEmpty then none else some (digitsVal intPart 0 : ℚ)
  | c :: frac =>
      if c = '.' then
        if frac.all isAsciiDigit && !(intPart.isEmpty && frac.isEmpty) then
          some ((digitsVal intPart 0 : ℚ) +
            (digitsVal frac 0 : ℚ) / (10 : ℚ) ^ frac.length)
        else none
      else none

/-- Python `float()` on an optionally signed decimal literal. -/
def parsePyFloat (l : List Char) : Option ℚ :=
  match l with
  | [] => none
  | c :: rest =>
      if c = '-' then (parseUnsignedDecimal rest).map (fun q => -q)
      else if c = '+' then parseUnsignedDecimal rest
      else parseUnsignedDecimal (c :: rest)

/-- Lines 91-98 of `manager.py` (`get_temperature` parsing): field 1 of
`output.split(": ")`, with `"°C"` deleted, fed to `float()`;
an out-of-range index or a malformed number yields `None`. -/
def parseTemperatureOutput (output : List Char) : Option ℚ :=
  match (splitColonSpace output).get? 1 with
  | none => none
  | some tempStr => parsePyFloat (removeDegC tempStr)

/-- Decimal digit characters of a natural number, most significant first
(Python `str(n)` for a nonnegative `int`). -/
def natChars (n : ℕ) : List Char :=
  if n = 0 then ['0'] else ((Nat.digits 10 n).map Nat.digitChar).reverse

/-- Python `str(n)` for an `int`: a `'-'` sign when negative, then the
decimal digits. -/
def intChars (n : ℤ) : List Char :=
  if n < 0 then '-' :: natChars n.natAbs else natChars n.toNat

/-- Lines 52-62 and 64-74 of `main.py`: `get_cpu_temperature` /
`get_gpu_temperature` turn the raw integer `n` read from the device file
into the string `f"{n}.0°C"`. -/
def formatTemperature (n : ℤ) : List Char :=
  intChars n ++ ['.', '0', '°', 'C']

/-- The literal `"CPU Temperature"`. -/
def cpuTempLabel : List Char :=
  ['C', 'P', 'U', ' ', 'T', 'e', 'm', 'p', 'e', 'r', 'a', 't', 'u', 'r', 'e']

/-- The literal `"GPU Temperature"`. -/
def gpuTempLabel : List Char :=
  ['G', 'P', 'U', ' ', 'T', 'e', 'm', 'p', 'e', 'r', 'a', 't', 'u', 'r', 'e']

/-- Lines 144 and 148 of `main.py`: the stdout line
`f"CPU Temperature: {temp}"` (resp. GPU), as the manager receives it after
`run_main_script` strips the trailing newline. -/
def tempLine (label : List Char) (n : ℤ) : List Char :=
  label ++ ':' :: ' ' :: formatTemperature n

/-! ### Lemmas about the wire-format pipeline -/

/-- An ASCII digit is none of the special characters of the pipeline. -/
theorem isAsciiDigit_ne (c : Char) (h : isAsciiDigit c = true) :
    c ≠ ':' ∧ c ≠ '°' ∧ c ≠ '-' ∧ c ≠ '+' ∧ c ≠ '.' := by
  refine ⟨?_, ?_, ?_, ?_, ?_⟩ <;> rintro rfl <;> revert h <;> decide

/-- Applying `Nat.digitChar` to a digit below 10 gives is an ASCII digit character whose
value is the digit. -/
theorem digitChar_spec (d : ℕ) (hd : d < 10) :
    isAsciiDigit (Nat.digitChar d) = true ∧ digitVal (Nat.digitChar d) = d :=
  by interval_cases d <;> exact ⟨by decide, by decide⟩

/-- The digit string `natChars n` is never empty. -/
theorem natChars_ne_nil (n : ℕ) : natChars n ≠ [] := by
  by_cases h : n = 0
  · subst h; simp [natChars]
  · rw [natChars, if_neg h]
    simp [h, Nat.digits_ne_nil_iff_ne_zero]

/-- Every character of `natChars n` is an ASCII digit. -/
theorem natChars_all_digits (n : ℕ) :
    ∀ c ∈ natChars n, isAsciiDigit c = true := by
  intro c hc
  by_cases h : n = 0
  · subst h
    simp [natChars] at hc
    subst hc; decide
  · rw [natChars, if_neg h] at hc
    simp only [List.mem_reverse, List.mem_map] at hc
    obtain ⟨d, hd, rfl⟩ := hc
    exact (digitChar_spec d (Nat.digits_lt_base (by norm_num) hd)).1

theorem digitsVal_append (l₁ l₂ : List Char) (acc : ℕ) :
    digitsVal (l₁ ++ l₂) acc = digitsVal l₂ (digitsVal l₁ acc) := by
  induction l₁ generalizing acc with
  | nil => rfl
  | cons c l ih => simp [digitsVal, ih]

/-- Folding the reversed digit characters of a little-endian digit list
recovers its value. -/
theorem digitsVal_rev_map (ds : List ℕ) (hds : ∀ d ∈ ds, d < 10) (acc : ℕ) :
    digitsVal ((ds.map Nat.digitChar).reverse) acc =
      acc * 10 ^ ds.length + Nat.ofDigits 10 ds := by
  induction ds generalizing acc with
  | nil => simp [digitsVal, Nat.ofDigits_nil]
  | cons d ds ih =>
      rw [List.map_cons, List.reverse_cons, digitsVal_append,
        ih (fun x hx => hds x (List.mem_cons_of_mem _ hx))]
      have hd := hds d (List.mem_cons_self _ _)
      simp only [digitsVal, (digitChar_spec d hd).2, Nat.ofDigits_cons,
        List.length_cons]
      ring

/-- The digit string of `n` evaluates back to `n`. -/
theorem digitsVal_natChars (n : ℕ) : digitsVal (natChars n) 0 = n := by
  by_cases h : n = 0
  · subst h; rfl
  · rw [natChars, if_neg h,
      digitsVal_rev_map _ (fun d hd => Nat.digits_lt_base (by norm_num) hd) 0]
    simp [Nat.ofDigits_digits]

/-- Splitting a colon-free chunk returns it whole. -/
theorem splitColonSpace_no_colon (l : List Char) (h : ':' ∉ l) :
    splitColonSpace l = [l] := by
  induction l with
  | nil => rfl
  | cons c rest ih =>
      have hc : ¬c = ':' := fun he => h (by simp [he])
      have hrest : ':' ∉ rest := fun hm => h (List.mem_cons_of_mem _ hm)
      cases rest with
      | nil => rfl
      | cons d rest2 =>
          rw [splitColonSpace, if_neg (fun hcd => hc hcd.1), ih hrest]
          rfl

/-- Splitting a colon-free label followed by `": "` peels the label off as
the first chunk. -/
theorem splitColonSpace_label (l₁ l₂ : List Char) (h : ':' ∉ l₁) :
    splitColonSpace (l₁ ++ ':' :: ' ' :: l₂) = l₁ :: splitColonSpace l₂ := by
  induction l₁ with
  | nil =>
      show splitColonSpace (':' :: ' ' :: l₂) = [] :: splitColonSpace l₂
      rw [splitColonSpace, if_pos ⟨rfl, rfl⟩]
  | cons c rest ih =>
      have hc : ¬c = ':' := fun he => h (by simp [he])
      have hrest : ':' ∉ rest := fun hm => h (List.mem_cons_of_mem _ hm)
      cases rest with
      | nil =>
          show splitColonSpace (c :: ':' :: ' ' :: l₂) =
            [c] :: splitColonSpace l₂
          rw [splitColonSpace, if_neg (fun hcd => hc hcd.1),
            splitColonSpace, if_pos ⟨rfl, rfl⟩]
          rfl
      | cons d rest2 =>
          show splitColonSpace (c :: (d :: rest2 ++ ':' :: ' ' :: l₂)) =
            (c :: d :: rest2) :: splitColonSpace l₂
          rw [List.cons_append, splitColonSpace,
            if_neg (fun hcd => hc hcd.1), ← List.cons_append, ih hrest]
          rfl

/-- Deleting `"°C"` from a degree-free chunk followed by one occurrence
keeps the chunk and continues after the occurrence. -/
theorem removeDegC_append (l₁ l₂ : List Char) (h : '°' ∉ l₁) :
    removeDegC (l₁ ++ '°' :: 'C' :: l₂) = l₁ ++ removeDegC l₂ := by
  induction l₁ with
  | nil =>
      show removeDegC ('°' :: 'C' :: l₂) = removeDegC l₂
      rw [removeDegC, if_pos ⟨rfl, rfl⟩]
  | cons c rest ih =>
      have hc : ¬c = '°' := fun he => h (by simp [he])
      have hrest : '°' ∉ rest := fun hm => h (List.mem_cons_of_mem _ hm)
      cases rest with
      | nil =>
          show removeDegC (c :: '°' :: 'C' :: l₂) = c :: removeDegC l₂
          rw [removeDegC, if_neg (fun hcd => hc hcd.1),
            removeDegC, if_pos ⟨rfl, rfl⟩]
      | cons d rest2 =>
          show removeDegC (c :: (d :: rest2 ++ '°' :: 'C' :: l₂)) =
            c :: (d :: rest2 ++ removeDegC l₂)
          rw [List.cons_append, removeDegC,
            if_neg (fun hcd => hc hcd.1), ← List.cons_append, ih hrest]

/-- Taking and dropping across an all-satisfying chunk followed by a
failing character. -/
theorem takeWhile_dropWhile_all (p : Char → Bool) (l₁ : List Char) (c : Char)
    (l₂ : List Char) (h1 : ∀ x ∈ l₁, p x = true) (hc : p c = false) :
    (l₁ ++ c :: l₂).takeWhile p = l₁ ∧
    (l₁ ++ c :: l₂).dropWhile p = c :: l₂ := by
  induction l₁ with
  | nil => simp [List.takeWhile_cons, List.dropWhile_cons, hc]
  | cons a l ih =>
      have ha := h1 a (List.mem_cons_self _ _)
      have hi := ih (fun x hx => h1 x (List.mem_cons_of_mem _ hx))
      simp [List.takeWhile_cons, List.dropWhile_cons, ha, hi.1, hi.2]

/-- Running `float` on the digit string of `m` followed by `".0"` gives exactly
`m`. -/
theorem parseUnsignedDecimal_natChars (m : ℕ) :
    parseUnsignedDecimal (natChars m ++ ['.', '0']) = some (m : ℚ) := by
  obtain ⟨htake, hdrop⟩ := takeWhile_dropWhile_all isAsciiDigit (natChars m)
    '.' ['0'] (natChars_all_digits m) (by decide)
  rw [parseUnsignedDecimal]
  rw [hdrop, htake]
  have h0 : isAsciiDigit '0' = true := by decide
  simp [digitsVal_natChars, digitsVal, digitVal, h0]

/-- Python `float` recovers every integer from its `str(n) + ".0"` rendering. -/
theorem parsePyFloat_intChars (n : ℤ) :
    parsePyFloat (intChars n ++ ['.', '0']) = some (n : ℚ) := by
  by_cases hn : n < 0
  · rw [intChars, if_pos hn]
    show parsePyFloat ('-' :: (natChars n.natAbs ++ ['.', '0'])) = some (n : ℚ)
    rw [parsePyFloat, if_pos rfl, parseUnsignedDecimal_natChars]
    have habs : ((n.natAbs : ℚ)) = -(n : ℚ) := by
      have h0 : ((n.natAbs : ℤ)) = -n :=
        Int.ofNat_natAbs_of_nonpos (le_of_lt hn)
      calc ((n.natAbs : ℚ)) = (((n.natAbs : ℤ) : ℚ)) :=
            (Int.cast_natCast n.natAbs).symm
        _ = ((-n : ℤ) : ℚ) := by rw [h0]
        _ = -(n : ℚ) := by push_cast; ring
    show some (-(n.natAbs : ℚ)) = some (n : ℚ)
    rw [habs, neg_neg]
  · rw [intChars, if_neg hn]
    rcases he : natChars n.toNat with _ | ⟨c, t⟩
    · exact absurd he (natChars_ne_nil _)
    · have hcd : isAsciiDigit c = true := by
        apply natChars_all_digits n.toNat
        rw [he]; exact List.mem_cons_self _ _
      obtain ⟨_, _, hminus, hplus, _⟩ := isAsciiDigit_ne c hcd
      show parsePyFloat (c :: (t ++ ['.', '0'])) = some (n : ℚ)
      rw [parsePyFloat, if_neg hminus, if_neg hplus]
      have : c :: (t ++ ['.', '0']) = natChars n.toNat ++ ['.', '0'] := by
        rw [he]; rfl
      rw [this, parseUnsignedDecimal_natChars]
      congr 1
      exact_mod_cast congrArg (fun k : ℤ => ((k : ℚ))) (Int.toNat_of_nonneg
        (not_lt.mp hn))

/-- Every character Python's `str` prints for an `int` is the sign or a
digit. -/
theorem intChars_chars (n : ℤ) :
    ∀ c ∈ intChars n, c = '-' ∨ isAsciiDigit c = true := by
  intro c hc
  rw [intChars] at hc
  split_ifs at hc
  · rcases List.mem_cons.mp hc with rfl | hm
    · exact Or.inl rfl
    · exact Or.inr (natChars_all_digits _ _ hm)
  · exact Or.inr (natChars_all_digits _ _ hc)

/-- C9: the temperature wire format round-trips. For every integer `n`
read from the device file, the CLI prints `CPU Temperature: ⟨n⟩.0°C`
(resp. GPU), and the monitor's parser — split on `": "`, delete `"°C"`,
`float()` — recovers exactly the value `n`. -/
theorem temperature_roundtrip (n : ℤ) :
    parseTemperatureOutput (tempLine cpuTempLabel n) = some ((n : ℚ)) ∧
    parseTemperatureOutput (tempLine gpuTempLabel n) = some ((n : ℚ)) := by
  have key : ∀ label : List Char, ':' ∉ label →
      parseTemperatureOutput (tempLine label n) = some ((n : ℚ)) := by
    intro label hl
    have hpay : ':' ∉ formatTemperature n := by
      intro hm
      rw [formatTemperature] at hm
      rcases List.mem_append.mp hm with hm1 | hm2
      · rcases intChars_chars n ':' hm1 with h1 | h1
        · exact absurd h1 (by decide)
        · exact absurd h1 (by decide)
      · revert hm2; decide
    have hdeg : '°' ∉ intChars n ++ ['.', '0'] := by
      intro hm
      rcases List.mem_append.mp hm with hm1 | hm2
      · rcases intChars_chars n '°' hm1 with h1 | h1
        · exact absurd h1 (by decide)
        · exact absurd h1 (by decide)
      · revert hm2; decide
    rw [parseTemperatureOutput, tempLine, splitColonSpace_label _ _ hl,
      splitColonSpace_no_colon _ hpay]
    show parsePyFloat (removeDegC (formatTemperature n)) = some ((n : ℚ))
    have hsplit : formatTemperature n =
        (intChars n ++ ['.', '0']) ++ '°' :: 'C' :: [] := by
      simp [formatTemperature]
    rw [hsplit, removeDegC_append _ _ hdeg]
    show parsePyFloat ((intChars n ++ ['.', '0']) ++ []) = some ((n : ℚ))
    rw [List.append_nil]
    exact parsePyFloat_intChars n
  exact ⟨key _ (by decide), key _ (by decide)⟩

/-- C10: `get_cooler_boost_status` is `true` exactly when the stripped
file content is the two characters `on`; any other readable content —
`ON`, `off`, garbage — gives `false`, never an error, and surrounding
whitespace is stripped before the comparison. -/
theorem coolerBoostStatus_spec :
    (∀ content : List Char,
      getCoolerBoostStatus content = true ↔ pyStrip content = ['o', 'n']) ∧
    getCoolerBoostStatus ['o', 'n'] = true ∧
    getCoolerBoostStatus ['o', 'n', '\n'] = true ∧
    getCoolerBoostStatus ['O', 'N'] = false ∧
    getCoolerBoostStatus ['o', 'f', 'f'] = false ∧
    getCoolerBoostStatus ['g', 'a', 'r', 'b', 'a', 'g', 'e'] = false := by
  refine ⟨fun content => ?_, by decide, by decide, by decide, by decide,
    by decide⟩
  simp [getCoolerBoostStatus, readSysfsFile]

/-! ### Concrete witnesses -/

/-- Witness for C1: default config, `cpu = 61 > 60`, boost off. -/
theorem decision_enable_of_overThreshold_witness :
    decision defaultConfig (some 61) (some 50) ⟨false, 0⟩ 100 = true :=
  (decision_enable_of_overThreshold defaultConfig (some 61) (some 50)
    ⟨false, 0⟩ 100 (Or.inl ⟨61, rfl, by norm_num [defaultConfig]⟩)).1

/-- Witness for C2: default config, readings 54 and 50 (below the safe
floor 55), boost on since time 30, now 100 (70 s elapsed, past the 60 s
margin): the decision is to disable. -/
theorem decision_disable_iff_time_elapsed_witness :
    decision defaultConfig (some 54) (some 50) ⟨true, 30⟩ 100 = false := by
  have h1 : ∀ c : ℚ, (some (54 : ℚ)) = some c →
      ¬defaultConfig.cpuThreshold < c := by
    intro c hc; cases hc; norm_num [defaultConfig]
  have h2 : ∀ c : ℚ, (some (50 : ℚ)) = some c →
      ¬defaultConfig.gpuThreshold < c := by
    intro c hc; cases hc; norm_num [defaultConfig]
  have h3 : ∀ c : ℚ, (some (54 : ℚ)) = some c →
      c < defaultConfig.cpuThreshold - defaultConfig.tempMargin := by
    intro c hc; cases hc; norm_num [defaultConfig]
  have h4 : ∀ c : ℚ, (some (50 : ℚ)) = some c →
      c < defaultConfig.gpuThreshold - defaultConfig.tempMargin := by
    intro c hc; cases hc; norm_num [defaultConfig]
  exact ((decision_disable_iff_time_elapsed defaultConfig (some 54)
      (some 50) ⟨true, 30⟩ 100 true rfl (Or.inl (by simp)) h1 h2 h3 h4).1
    (by norm_num [defaultConfig])).1

/-- Witness for C4: an enable write fails at time 100; at time 200, still
hot, the write is attempted again. -/
theorem failed_write_preserved_and_retried_witness :
    (⟨false, 100⟩ : MonitorState).enabled =
      (⟨false, 0⟩ : MonitorState).enabled ∧
    (checkTemperatures defaultConfig (some 70) none ⟨false, 100⟩ 200
      true).2 = some true :=
  failed_write_preserved_and_retried defaultConfig (some 70) none (some 70)
    none ⟨false, 0⟩ ⟨false, 100⟩ 100 200 true true
    (by simp [checkTemperatures, computeShouldEnable, overThreshold,
        safeReading, setCoolerBoost, defaultConfig]
        norm_num)
    (by simp [decision, computeShouldEnable, overThreshold, defaultConfig]
        norm_num)

/-- Witness for the amended C5: a successful enable attempt stamps
`lastEnabledAt` with the current time. -/
theorem state_change_characterisation_witness :
    (checkTemperatures defaultConfig (some 70) none ⟨false, 0⟩ 100
      true).1.lastEnabledAt = 100 :=
  (state_change_characterisation defaultConfig (some 70) none ⟨false, 0⟩
      100 true).2.1
    (by simp [checkTemperatures, computeShouldEnable, overThreshold,
        safeReading, setCoolerBoost, defaultConfig]
        norm_num)

/-- Witness for C6: default config; readings exactly at the thresholds do
not enable, and a reading exactly at the safe floor keeps boost on. -/
theorem boundary_tie_breaks_witness :
    decision defaultConfig (some defaultConfig.cpuThreshold)
      (some defaultConfig.gpuThreshold) ⟨false, 0⟩ 100 = false ∧
    decision defaultConfig
      (some (defaultConfig.cpuThreshold - defaultConfig.tempMargin)) none
      ⟨true, 0⟩ 100 = true :=
  ⟨(boundary_tie_breaks defaultConfig ⟨false, 0⟩ 100
      (by norm_num [defaultConfig])).2.2.1 rfl,
   ((boundary_tie_breaks defaultConfig ⟨true, 0⟩ 100
      (by norm_num [defaultConfig])).2.2.2 rfl).1⟩

/-- Witness for C8: a missing main script fails `start` from the stopped
state; a readable one starts the loop. -/
theorem start_gates_on_collaborator_witness :
    startMonitor false false true = (false, .failed, false) ∧
    startMonitor false true true = (true, .started, true) :=
  ⟨(start_gates_on_collaborator false true).1 rfl,
   (start_gates_on_collaborator true true).2 rfl⟩

end MsiCooler
